import Mathlib

/-!
Verification development for the rust_tls_verifier repository.

The visible source, src/src/main.js, is the UI glue: the `do_request`
function reads the form fields, builds one parameters object, invokes the
backend engine command once, and writes the result into the status, error
and logdata DOM elements.  The engine itself (the Tauri backend command
`do_request`) is not among the visible sources; where a claim is about the
engine it is settled against definitions modelled from the specification,
each marked `Modelled from the spec:` in its doc comment.
-/

namespace TlsVerifier

/-- The nine form field values that `do_request` in src/src/main.js reads via
`document.querySelector(...)`, one field per selector id, named after the ids
in the source. -/
structure FormState where
  idUrl : String
  idProxy : String
  idPrivateKeystorePath : String
  idPrivateKeystorePassword : String
  idPPublicCertificatePath : String
  idCheckHostname : Bool
  idUseInbuildRootCerts : Bool
  idHttpsOnly : Bool
  idUseTlsSni : Bool
  deriving DecidableEq

/-- The `input` object that `do_request` builds (lines 4-16 of main.js) and
passes to `invoke`: `url` always present; `proxy_url` present only when the
proxy field is non-empty; the three path/password string fields and the four
boolean flags always present. -/
structure Input where
  url : String
  proxy_url : Option String
  keystore_path : String
  keystore_password : String
  public_certificate_path : String
  check_hostname : Bool
  use_inbuilt_root_certs : Bool
  use_https_only : Bool
  use_tls_sni : Bool
  deriving DecidableEq

/-- Lines 4-16 of `do_request`: construct the `input` object from the form
field values.  The proxy field is copied into `proxy_url` only when its
value has positive length; every other field is copied unconditionally. -/
def buildInput (f : FormState) : Input :=
  { url := f.idUrl
    proxy_url := if f.idProxy.length > 0 then some f.idProxy else none
    keystore_path := f.idPrivateKeystorePath
    keystore_password := f.idPrivateKeystorePassword
    public_certificate_path := f.idPPublicCertificatePath
    check_hostname := f.idCheckHostname
    use_inbuilt_root_certs := f.idUseInbuildRootCerts
    use_https_only := f.idHttpsOnly
    use_tls_sni := f.idUseTlsSni }

/-- The shape of the value the UI consumes from the engine: the resolved
response and the rejection value are both read through their `success`,
`error` and `logdata` fields (the `catch` branch of main.js reads
`error.error` and `error.logdata`). -/
structure UiResponse where
  success : Bool
  error : String
  logdata : String
  deriving DecidableEq

/-- The four DOM writes `do_request` performs: the `classList` assignment and
the `innerText` of the `#status`, `#error` and `#logdata` elements. -/
structure DomOutput where
  statusClassList : String
  statusText : String
  errorText : String
  logdataText : String
  deriving DecidableEq

/-- `do_request` from src/src/main.js, lines 3-38: build the input from the
form, invoke the engine exactly once on it, then write the DOM according to
the `then`/`catch` branches.  The engine is a parameter: `Except.ok` models
the promise resolving, `Except.error` models it rejecting.  The second
component records the inputs on which the engine was invoked. -/
def do_request (f : FormState) (engine : Input → Except UiResponse UiResponse) :
    DomOutput × List Input :=
  let input := buildInput f
  match engine input with
  | Except.ok response =>
    if response.success = true then
      (⟨"badge bg-success", "Success", "", ""⟩, [input])
    else
      (⟨"badge bg-danger", "Failed", response.error, response.logdata⟩, [input])
  | Except.error err =>
    (⟨"badge bg-danger", "Failed", err.error, err.logdata⟩, [input])

/-- A concrete form used for closed instances of the theorems below. -/
def sampleForm : FormState :=
  { idUrl := "https://example.test"
    idProxy := ""
    idPrivateKeystorePath := ""
    idPrivateKeystorePassword := ""
    idPPublicCertificatePath := ""
    idCheckHostname := true
    idUseInbuildRootCerts := true
    idHttpsOnly := false
    idUseTlsSni := true }

/-! Engine model.  The Tauri backend command `do_request` (TrustContext
Builder and Request Executor) is not among the visible sources; the
definitions below are modelled from the specification. -/

/-- Modelled from the spec: the engine error taxonomy of section 7; the
backend source defining these kinds is not visible. -/
inductive EngineError where
  | InvalidUrl
  | HttpsRequired
  | NoTrustAnchors
  | CertificateParse
  | KeystoreAccess
  | IncompleteClientIdentity
  | ProxyConnect
  | TlsHandshake
  | Transport
  | Timeout
  deriving DecidableEq

/-- Modelled from the spec: URL schemes accepted by the engine. -/
inductive Scheme where
  | http
  | https
  deriving DecidableEq

/-- Whether the first list of characters opens the second one. -/
def charsMatch : List Char → List Char → Bool
  | [], _ => true
  | _ :: _, [] => false
  | c :: cs, d :: ds => c == d && charsMatch cs ds

/-- Modelled from the spec: `target_url` must parse as an absolute URL with
scheme `http` or `https`; parsing is modelled by recognising the two scheme
markers at the start of the string. -/
def parseScheme (url : String) : Option Scheme :=
  if charsMatch "https://".data url.data then some Scheme.https
  else if charsMatch "http://".data url.data then some Scheme.http
  else none

/-- Modelled from the spec: the external circumstances of one invocation as
oracles — whether certificate parsing, proxy connect, the TLS handshake and
the HTTP exchange succeed, the certificates parsed from the public
certificate file, whether the keystore file is intact and the password that
actually opens it, the TLS diagnostic detail and the response summary.  Two
invocations run against the same `World` face the same external
circumstances. -/
structure World where
  parsedCerts : List String
  certParseOk : Bool
  keystoreIntact : Bool
  keystorePassword : String
  proxyOk : Bool
  tlsOk : Bool
  httpOk : Bool
  tlsDetail : String
  responseSummary : String
  deriving DecidableEq

/-- Modelled from the spec, section 3: the trust material for one handshake —
the root-of-trust set and the optional client identity. -/
structure TrustContext where
  root_anchors : List String
  client_identity : Option String
  deriving DecidableEq

/-- Modelled from the spec: the platform default trust store seeding
`root_anchors` when `use_inbuilt_root_certs` is true. -/
def inbuiltAnchors : List String := ["platform-root"]

/-- Modelled from the spec, section 4.1: the TrustContext Builder.  Step 1:
with inbuilt roots disabled and no certificate path, fail with
`NoTrustAnchors`.  Step 2: parse the public certificate file if a path is
given, appending to the anchors; a parse failure is `CertificateParse`.
Steps 3-4: with both keystore fields non-empty open the keystore with the
given password — a corrupt keystore or a password other than the one that
opens it is `KeystoreAccess`; with exactly one of the two fields given fail
with `IncompleteClientIdentity`; with neither, the client identity stays
absent. -/
def build (p : Input) (w : World) : Except EngineError TrustContext :=
  if p.use_inbuilt_root_certs = false ∧ p.public_certificate_path = "" then
    Except.error EngineError.NoTrustAnchors
  else
    let base : List String := if p.use_inbuilt_root_certs = true then inbuiltAnchors else []
    let withCerts : Except EngineError (List String) :=
      if p.public_certificate_path = "" then Except.ok base
      else if w.certParseOk = true then Except.ok (base ++ w.parsedCerts)
      else Except.error EngineError.CertificateParse
    match withCerts with
    | Except.error e => Except.error e
    | Except.ok anchors =>
      if p.keystore_path = "" ∧ p.keystore_password = "" then
        Except.ok ⟨anchors, none⟩
      else if p.keystore_path ≠ "" ∧ p.keystore_password ≠ "" then
        if w.keystoreIntact = true ∧ p.keystore_password = w.keystorePassword then
          Except.ok ⟨anchors, some "client-identity"⟩
        else Except.error EngineError.KeystoreAccess
      else
        Except.error EngineError.IncompleteClientIdentity

/-- Modelled from the spec: the observable network actions of one
invocation; an empty trace means no socket was opened. -/
inductive NetEvent where
  | proxyConnect
  | directConnect
  | tlsHandshake
  | httpSend
  deriving DecidableEq

/-- Modelled from the spec, section 4.2 step 6-7: send the single HTTP
request and read the response; an I/O failure is `Transport`, otherwise the
response summary becomes the success logdata. -/
def httpStep (w : World) (events : List NetEvent) :
    Except (EngineError × String) String × List NetEvent :=
  if w.httpOk = true then (Except.ok w.responseSummary, events ++ [NetEvent.httpSend])
  else (Except.error (EngineError.Transport, "transport failure"), events ++ [NetEvent.httpSend])

/-- Modelled from the spec, section 4.2 steps 4-5: for scheme `https`
perform the TLS handshake over the established connection, any handshake
failure becoming `TlsHandshake` with the underlying detail preserved; for
scheme `http` skip the handshake entirely. -/
def tlsStep (w : World) (scheme : Scheme) (events : List NetEvent) :
    Except (EngineError × String) String × List NetEvent :=
  if scheme = Scheme.https then
    if w.tlsOk = true then httpStep w (events ++ [NetEvent.tlsHandshake])
    else (Except.error (EngineError.TlsHandshake, "tls handshake failed: " ++ w.tlsDetail),
      events ++ [NetEvent.tlsHandshake])
  else httpStep w events

/-- Modelled from the spec, section 4.2 steps 1-3: the Request Executor.
Parse the target URL (`InvalidUrl` on failure); enforce the HTTPS-only
policy before any connection attempt (`HttpsRequired`); then open the
network path, through the proxy when `proxy_url` is set (`ProxyConnect` when
the proxy or tunnel fails), and continue with the TLS handshake and the HTTP
exchange. -/
def executeSteps (p : Input) (_ctx : TrustContext) (w : World) :
    Except (EngineError × String) String × List NetEvent :=
  match parseScheme p.url with
  | none => (Except.error (EngineError.InvalidUrl, "target url did not parse"), [])
  | some scheme =>
    if p.use_https_only = true ∧ scheme ≠ Scheme.https then
      (Except.error (EngineError.HttpsRequired, "https required by policy"), [])
    else
      match p.proxy_url with
      | some _ =>
        if w.proxyOk = true then tlsStep w scheme [NetEvent.proxyConnect]
        else (Except.error (EngineError.ProxyConnect, "proxy tunnel refused"),
          [NetEvent.proxyConnect])
      | none => tlsStep w scheme [NetEvent.directConnect]

/-- Modelled from the spec, section 3: the structured Outcome — success
flag, structured error (empty, i.e. `none`, on success) and the
human-readable logdata. -/
structure Outcome where
  success : Bool
  error : Option EngineError
  logdata : String
  deriving DecidableEq

/-- Modelled from the spec: a fixed human-readable line for each TrustContext
construction failure, written into the failure logdata.  None of these
strings involves any supplied secret. -/
def describeBuildError : EngineError → String
  | EngineError.InvalidUrl => "target url did not parse"
  | EngineError.HttpsRequired => "https required by policy"
  | EngineError.NoTrustAnchors => "no trust anchors configured"
  | EngineError.CertificateParse => "public certificate file did not parse"
  | EngineError.KeystoreAccess => "keystore could not be opened"
  | EngineError.IncompleteClientIdentity => "keystore path and password must be given together"
  | EngineError.ProxyConnect => "proxy tunnel refused"
  | EngineError.TlsHandshake => "tls handshake failed"
  | EngineError.Transport => "transport failure"
  | EngineError.Timeout => "timed out"

/-- Modelled from the spec, section 4.2 boundary: convert the result of the
internal pipeline into the one structured Outcome handed to the caller. -/
def toOutcome : Except (EngineError × String) String → Outcome
  | Except.ok summary => ⟨true, none, summary⟩
  | Except.error (e, log) => ⟨false, some e, log⟩

/-- Modelled from the spec, section 2 data flow: one engine invocation —
build the TrustContext from the parameters, then run the Request Executor;
a build failure is converted at the boundary into a failure Outcome with no
network event. -/
def engineRun (p : Input) (w : World) : Outcome × List NetEvent :=
  match build p w with
  | Except.error e => (toOutcome (Except.error (e, describeBuildError e)), [])
  | Except.ok ctx =>
    let r := executeSteps p ctx w
    (toOutcome r.1, r.2)

/-- The internal pipeline result before the boundary conversion: the build
step chained with the executor steps. -/
def pipelineResult (p : Input) (w : World) : Except (EngineError × String) String :=
  match build p w with
  | Except.error e => Except.error (e, describeBuildError e)
  | Except.ok ctx => (executeSteps p ctx w).1

/-- The Outcome the caller receives from one engine invocation. -/
def engineOutcome (p : Input) (w : World) : Outcome := (engineRun p w).1

/-- A concrete benign world for closed instances of the theorems below. -/
def sampleWorld : World :=
  { parsedCerts := ["custom-root"]
    certParseOk := true
    keystoreIntact := true
    keystorePassword := "correct horse"
    proxyOk := true
    tlsOk := true
    httpOk := true
    tlsDetail := "chain ok"
    responseSummary := "HTTP/1.1 200 OK" }

/-! Theorems about the UI layer. -/

/-- A string has positive length exactly when it is not the empty string. -/
theorem string_length_pos_iff (s : String) : s.length > 0 ↔ s ≠ "" := by
  constructor
  · intro h he
    subst he
    simp at h
  · intro h
    cases s with
    | mk data =>
      cases data with
      | nil => exact absurd rfl h
      | cons a l => simp [String.length]

/-- C7: each call to `do_request` performs exactly one engine invocation and
produces exactly one DOM outcome: in every branch of the `then`/`catch`
handling, the invocation trace has length one. -/
theorem do_request_single_invocation
    (f : FormState) (engine : Input → Except UiResponse UiResponse) :
    (do_request f engine).2.length = 1 := by
  cases h : engine (buildInput f) with
  | ok response =>
    by_cases hs : response.success = true <;> simp [do_request, h, hs]
  | error err => simp [do_request, h]

/-- C8: the engine receives exactly the explicit parameters value built once
from the form field values at call time: the invocation trace is the
singleton holding `buildInput f`, so no other state crosses into the
engine. -/
theorem do_request_passes_built_input
    (f : FormState) (engine : Input → Except UiResponse UiResponse) :
    (do_request f engine).2 = [buildInput f] := by
  cases h : engine (buildInput f) with
  | ok response =>
    by_cases hs : response.success = true <;> simp [do_request, h, hs]
  | error err => simp [do_request, h]

/-- C9: in the object passed to the engine, `proxy_url` is present exactly
when the proxy field is non-empty (absent when blank, carrying the field
value otherwise), whereas the keystore path, keystore password and public
certificate path are always the field values, empty strings when blank. -/
theorem buildInput_field_presence (f : FormState) :
    ((buildInput f).proxy_url = none ↔ f.idProxy = "")
      ∧ (buildInput f).proxy_url = (if f.idProxy = "" then none else some f.idProxy)
      ∧ (buildInput f).keystore_path = f.idPrivateKeystorePath
      ∧ (buildInput f).keystore_password = f.idPrivateKeystorePassword
      ∧ (buildInput f).public_certificate_path = f.idPPublicCertificatePath := by
  refine ⟨?_, ?_, rfl, rfl, rfl⟩ <;> by_cases h : f.idProxy = ""
  · simp [buildInput, h]
  · simp [buildInput, h, (string_length_pos_iff f.idProxy).mpr h]
  · simp [buildInput, h]
  · simp [buildInput, h, (string_length_pos_iff f.idProxy).mpr h]

/-- C10: when the engine invocation rejects, the UI produces the very same
DOM presentation as for a resolved Outcome with `success = false` carrying
the same error and logdata: status text Failed, the rejection value's
`error` field as the error text and its `logdata` field as the log text. -/
theorem do_request_reject_matches_failure (f : FormState) (r : UiResponse) :
    (do_request f (fun _ => Except.error r)).1
        = (do_request f (fun _ => Except.ok ⟨false, r.error, r.logdata⟩)).1
      ∧ (do_request f (fun _ => Except.error r)).1.statusText = "Failed"
      ∧ (do_request f (fun _ => Except.error r)).1.errorText = r.error
      ∧ (do_request f (fun _ => Except.error r)).1.logdataText = r.logdata := by
  refine ⟨?_, rfl, rfl, rfl⟩
  simp [do_request]

/-- C1, counterexample: a completed successful invocation whose Outcome
carries non-empty logdata, yet the UI writes the empty string into the
logdata element instead of presenting the Outcome's logdata. -/
theorem ui_success_drops_logdata :
    (do_request sampleForm (fun _ => Except.ok ⟨true, "", "handshake trace"⟩)).1.statusText
        = "Success"
      ∧ (do_request sampleForm
          (fun _ => Except.ok ⟨true, "", "handshake trace"⟩)).1.logdataText = ""
      ∧ ("" : String) ≠ "handshake trace" := by
  refine ⟨rfl, rfl, ?_⟩
  decide

/-- C1, amended: the UI branches on `success`; it presents the Outcome's
error and logdata in the failure case — whether the invocation resolved
with `success = false` or rejected — but clears both displays in the
success case. -/
theorem ui_presents_logdata_on_failure_only (f : FormState) (r : UiResponse) :
    ((do_request f (fun _ => Except.ok r)).1.logdataText
        = (if r.success = true then "" else r.logdata))
      ∧ ((do_request f (fun _ => Except.ok r)).1.errorText
        = (if r.success = true then "" else r.error))
      ∧ (do_request f (fun _ => Except.error r)).1.logdataText = r.logdata := by
  by_cases h : r.success = true <;> simp [do_request, h]

/-! Theorems about the engine model. -/

/-- A concrete benign engine input for closed instances of the theorems
below. -/
def sampleInput : Input :=
  { url := "https://example.test"
    proxy_url := none
    keystore_path := ""
    keystore_password := ""
    public_certificate_path := ""
    check_hostname := true
    use_inbuilt_root_certs := true
    use_https_only := false
    use_tls_sni := true }

/-- The Outcome handed to the caller is the boundary conversion of the
internal pipeline result. -/
theorem engineOutcome_eq_toOutcome (p : Input) (w : World) :
    engineOutcome p w = toOutcome (pipelineResult p w) := by
  unfold engineOutcome engineRun pipelineResult
  rcases hbuild : build p w with e | ctx <;> simp [hbuild]

/-- C2: every Outcome satisfies the exclusivity invariant — exactly one of
success with empty error and failure with non-empty error holds — and
`success = true` is equivalent to the error being empty, so a consumer
branching on `success` may rely on either reading. -/
theorem outcome_exclusivity (p : Input) (w : World) :
    (((engineOutcome p w).success = true ∧ (engineOutcome p w).error = none)
        ∨ ((engineOutcome p w).success = false ∧ (engineOutcome p w).error ≠ none))
      ∧ ¬(((engineOutcome p w).success = true ∧ (engineOutcome p w).error = none)
        ∧ ((engineOutcome p w).success = false ∧ (engineOutcome p w).error ≠ none))
      ∧ ((engineOutcome p w).success = true ↔ (engineOutcome p w).error = none) := by
  rw [engineOutcome_eq_toOutcome]
  rcases hpr : pipelineResult p w with ⟨e, log⟩ | s <;> simp [toOutcome]

/-- C3: every failure of the internal pipeline is captured at the boundary
and converted into the one structured Outcome with `success = false`
carrying the failure, so the caller never observes an uncaught fault. -/
theorem engine_boundary_catches (p : Input) (w : World) (e : EngineError) (log : String)
    (h : pipelineResult p w = Except.error (e, log)) :
    engineOutcome p w = ⟨false, some e, log⟩ := by
  rw [engineOutcome_eq_toOutcome, h]
  rfl

/-- Witness for C3 at a concrete input: an unparsable target URL fails
inside the pipeline and surfaces as a structured failure Outcome. -/
theorem engine_boundary_catches_witness :
    pipelineResult { sampleInput with url := "nota url" } sampleWorld
        = Except.error (EngineError.InvalidUrl, "target url did not parse")
      ∧ engineOutcome { sampleInput with url := "nota url" } sampleWorld
        = ⟨false, some EngineError.InvalidUrl, "target url did not parse"⟩ :=
  ⟨by rfl, engine_boundary_catches _ _ _ _ (by rfl)⟩

/-- C4, counterexample: with `use_https_only = true` and an `http` target
but inbuilt roots disabled and no certificate path, the TrustContext build
runs first and the Outcome is `NoTrustAnchors`, not `HttpsRequired`. -/
theorem https_only_claim_counterexample :
    ({ sampleInput with
        url := "http://example.test"
        use_https_only := true
        use_inbuilt_root_certs := false } : Input).use_https_only = true
      ∧ parseScheme ({ sampleInput with
          url := "http://example.test"
          use_https_only := true
          use_inbuilt_root_certs := false } : Input).url = some Scheme.http
      ∧ (engineOutcome { sampleInput with
          url := "http://example.test"
          use_https_only := true
          use_inbuilt_root_certs := false } sampleWorld).error
        ≠ some EngineError.HttpsRequired
      ∧ (engineOutcome { sampleInput with
          url := "http://example.test"
          use_https_only := true
          use_inbuilt_root_certs := false } sampleWorld).error
        = some EngineError.NoTrustAnchors := by
  refine ⟨by rfl, by rfl, ?_, by rfl⟩
  decide

/-- C4, amended: provided the TrustContext build succeeds, an invocation
with `use_https_only = true` and an `http` target fails with
`HttpsRequired` and the network event trace is empty — the policy is
decided before any connection attempt. -/
theorem https_only_rejected_before_network (p : Input) (ctx : TrustContext) (w : World)
    (h1 : p.use_https_only = true) (h2 : parseScheme p.url = some Scheme.http)
    (h3 : build p w = Except.ok ctx) :
    engineRun p w
      = (⟨false, some EngineError.HttpsRequired, "https required by policy"⟩, []) := by
  simp [engineRun, h3, executeSteps, h2, h1, toOutcome]

/-- Witness for C4 as amended at a concrete input: inbuilt roots make the
build succeed, and the `http` target under `use_https_only` yields
`HttpsRequired` with no network event. -/
theorem https_only_rejected_before_network_witness :
    ({ sampleInput with url := "http://example.test", use_https_only := true } : Input).use_https_only
        = true
      ∧ parseScheme ({ sampleInput with
          url := "http://example.test", use_https_only := true } : Input).url = some Scheme.http
      ∧ build { sampleInput with url := "http://example.test", use_https_only := true } sampleWorld
        = Except.ok ⟨["platform-root"], none⟩
      ∧ engineRun { sampleInput with url := "http://example.test", use_https_only := true }
          sampleWorld
        = (⟨false, some EngineError.HttpsRequired, "https required by policy"⟩, []) :=
  ⟨by rfl, by rfl, by rfl,
    https_only_rejected_before_network _ ⟨["platform-root"], none⟩ _ (by rfl) (by rfl) (by rfl)⟩

/-- The TrustContext build reads the keystore password only through its
emptiness and its correctness: two passwords alike in both build the same
way against the same world. -/
theorem build_password_congruence (p : Input) (pw1 pw2 : String) (w : World)
    (hempty : pw1 = "" ↔ pw2 = "")
    (hcorrect : pw1 = w.keystorePassword ↔ pw2 = w.keystorePassword) :
    build { p with keystore_password := pw1 } w
      = build { p with keystore_password := pw2 } w := by
  unfold build
  by_cases hp1 : pw1 = ""
  · have hp2 : pw2 = "" := hempty.mp hp1
    simp [hp1, hp2]
  · have hp2 : pw2 ≠ "" := fun he => hp1 (hempty.mpr he)
    by_cases hc1 : pw1 = w.keystorePassword
    · have hc2 : pw2 = w.keystorePassword := hcorrect.mp hc1
      simp [hp1, hp2, hc1, hc2]
    · have hc2 : ¬pw2 = w.keystorePassword := fun hc => hc1 (hcorrect.mpr hc)
      simp [hp1, hp2, hc1, hc2]

/-- C5: the caller-visible text depends on the keystore password only
through whether one was supplied and whether it opens the keystore — two
invocations differing only in the keystore password value, run against the
same external world, with the passwords alike in emptiness and in
correctness, produce identical `error` and identical `logdata`; nothing
else about the password value, in particular the value itself, reaches
either text. -/
theorem keystore_password_noninterference (p : Input) (pw1 pw2 : String) (w : World)
    (hempty : pw1 = "" ↔ pw2 = "")
    (hcorrect : pw1 = w.keystorePassword ↔ pw2 = w.keystorePassword) :
    (engineOutcome { p with keystore_password := pw1 } w).error
        = (engineOutcome { p with keystore_password := pw2 } w).error
      ∧ (engineOutcome { p with keystore_password := pw1 } w).logdata
        = (engineOutcome { p with keystore_password := pw2 } w).logdata := by
  have key : engineRun { p with keystore_password := pw1 } w
      = engineRun { p with keystore_password := pw2 } w := by
    unfold engineRun
    rw [build_password_congruence p pw1 pw2 w hempty hcorrect]
    rfl
  constructor <;> · unfold engineOutcome; rw [key]

/-- Witness for C5 at a concrete input: two different non-empty passwords,
both wrong for the keystore of the concrete world, yield identical error
and logdata. -/
theorem keystore_password_noninterference_witness :
    (("hunter2" : String) = "" ↔ ("swordfish" : String) = "")
      ∧ (("hunter2" : String) = sampleWorld.keystorePassword
          ↔ ("swordfish" : String) = sampleWorld.keystorePassword)
      ∧ ((engineOutcome { { sampleInput with keystore_path := "client.p12" } with
            keystore_password := "hunter2" } sampleWorld).error
          = (engineOutcome { { sampleInput with keystore_path := "client.p12" } with
            keystore_password := "swordfish" } sampleWorld).error
        ∧ (engineOutcome { { sampleInput with keystore_path := "client.p12" } with
            keystore_password := "hunter2" } sampleWorld).logdata
          = (engineOutcome { { sampleInput with keystore_path := "client.p12" } with
            keystore_password := "swordfish" } sampleWorld).logdata) :=
  ⟨by decide, by decide,
    keystore_password_noninterference { sampleInput with keystore_path := "client.p12" }
      "hunter2" "swordfish" sampleWorld (by decide) (by decide)⟩

/-- C6: with inbuilt roots disabled and no public certificate path, the
invocation fails with `NoTrustAnchors` and the network event trace is
empty — no network attempt is made. -/
theorem no_trust_anchors_rejected (p : Input) (w : World)
    (h1 : p.use_inbuilt_root_certs = false) (h2 : p.public_certificate_path = "") :
    engineRun p w
      = (⟨false, some EngineError.NoTrustAnchors, "no trust anchors configured"⟩, []) := by
  simp [engineRun, build, h1, h2, toOutcome, describeBuildError]

/-- Witness for C6 at a concrete input. -/
theorem no_trust_anchors_rejected_witness :
    ({ sampleInput with use_inbuilt_root_certs := false } : Input).use_inbuilt_root_certs = false
      ∧ ({ sampleInput with use_inbuilt_root_certs := false } : Input).public_certificate_path = ""
      ∧ engineRun { sampleInput with use_inbuilt_root_certs := false } sampleWorld
        = (⟨false, some EngineError.NoTrustAnchors, "no trust anchors configured"⟩, []) :=
  ⟨by rfl, by rfl, no_trust_anchors_rejected _ _ (by rfl) (by rfl)⟩

end TlsVerifier
